import Mathlib

/-!
Shallow embedding of `src/pypots/utils/commands/dev.py`, the `pypots-cli dev`
subcommand: a `DevCommand` record of the parsed flags, the `check_arguments`
validation (Python `assert`s become an `Except String Unit` returning the first
violated assertion's message), and `run`, which dispatches to one of the four
action branches and executes a sequence of statements (log lines, in-process
directory removals with errors ignored, and external command invocations made
through `BaseCommand.execute_command`).

External commands are opaque subprocesses; their behaviour is an oracle
`runner : String → ExecOutcome` saying, for each command line, whether the
invocation succeeds, raises a Python `ImportError`, or raises some other
exception.  `run` records the effects performed, in order, as a trace, and
reproduces the `try`/`except` wrapping at the bottom of `DevCommand.run`.
-/

namespace PyPotsDev

/-- Outcome of one external command invocation: success, a raised Python
ImportError carrying a message, or any other raised exception. -/
inductive ExecOutcome
  | ok
  | importErr (msg : String)
  | err (msg : String)
deriving DecidableEq, Repr

/-- An exception propagating out of the `try` block of `DevCommand.run`,
before the `except` clauses rewrap it. -/
inductive RaisedExc
  | importError (msg : String)
  | exc (msg : String)
deriving DecidableEq, Repr

/-- The error `DevCommand.run` terminates with, as seen by the caller:
an AssertionError from `check_arguments`, the rewrapped ImportError, or the
rewrapping RuntimeError (its cause the original exception's message). -/
inductive RunError
  | assertionError (msg : String)
  | importError (msg : String)
  | runtimeError (cause : String)
deriving DecidableEq, Repr

/-- One observable side effect of `DevCommand.run`: a logger.info line, an
in-process `shutil.rmtree(dir, ignore_errors=True)`, or an external command
invocation via `execute_command`. -/
inductive Effect
  | logInfo (msg : String)
  | rmtreeIgnore (dir : String)
  | execCmd (cmd : String)
deriving DecidableEq, Repr

/-- One statement of an action branch of `DevCommand.run`, before execution:
log lines and `shutil.rmtree(·, ignore_errors=True)` cannot fail, an `exec`
statement invokes `execute_command` and may raise. -/
inductive Stmt
  | log (msg : String)
  | rmtree (dir : String)
  | exec (cmd : String)
deriving DecidableEq, Repr

/-- The `DevCommand` record: the six parsed flags, as stored by
`DevCommand.__init__` (the argparse defaults are false for every boolean and
`None` for `-k`, here `Option.none`). -/
structure DevCommand where
  build : Bool
  cleanup : Bool
  run_tests : Bool
  k : Option String
  show_coverage : Bool
  lint_code : Bool
deriving DecidableEq, Repr

/-- The module-level IMPORT_ERROR_MESSAGE constant of `dev.py`. -/
def IMPORT_ERROR_MESSAGE : String :=
  "`pypots-cli dev` command is for PyPOTS developers to run tests easily. " ++
  "Therefore, you need a complete PyPOTS development environment. However, you are missing some dependencies. " ++
  "Please refer to https://github.com/WenjieDu/PyPOTS/blob/main/environment-dev.yml for dependency details. "

/-- The text of the working-directory assertion message that precedes the
interpolated working directory path. -/
def dirCheckMsgHead : String :=
  "Command `pypots-cli dev` can only be run under the root directory of project PyPOTS, " ++
  "but you're running it under the path "

/-- The text of the working-directory assertion message that follows the
interpolated working directory path. -/
def dirCheckMsgTail : String := ". Please make a check."

/-- The working-directory assertion message of `check_arguments`, with the
current working directory path interpolated. -/
def dirCheckMsg (cwd : String) : String :=
  dirCheckMsgHead ++ cwd ++ dirCheckMsgTail

/-- The assertion message for `-k` given without `--run_tests`. -/
def kUsageMsg : String :=
  "Argument `-k` should combine the use of `--run_tests`. " ++
  "Try `pypots-cli dev --run_tests -k your_pattern`"

/-- The assertion message for `--show_coverage` given without `--run_tests`. -/
def coverageUsageMsg : String :=
  "Argument `--show_coverage` should combine the use of `--run_tests`. " ++
  "Try `pypots-cli dev --run_tests --show_coverage`"

/-- The assertion message for `--cleanup` combined with `--run_tests` or
`--lint_code`. -/
def cleanupAloneMsg : String :=
  "Argument `--cleanup` should be used alone. " ++
  "Try `pypots-cli dev --cleanup`"

/-- `DevCommand.check_arguments`.  `listing` is `os.listdir(".")` (the names in
the current working directory) and `cwd` is `os.getcwd()`.  The sequential
Python `assert`s become a first-failure chain: the result is `.error msg` with
the first violated assertion's message, or `.ok ()` when every check passes. -/
def check_arguments (listing : List String) (cwd : String) (c : DevCommand) :
    Except String Unit :=
  if !(listing.contains "docs" && listing.contains "pypots") then
    .error (dirCheckMsg cwd)
  else if c.k.isSome && !c.run_tests then
    .error kUsageMsg
  else if c.show_coverage && !c.run_tests then
    .error coverageUsageMsg
  else if c.cleanup && (c.run_tests || c.lint_code) then
    .error cleanupAloneMsg
  else
    .ok ()

/-- Python truthiness of the stored `-k` value: `None` and the empty string
are falsy, every other string is truthy (`if self._k`). -/
def truthy : Option String → Bool
  | none => false
  | some s => s ≠ ""

/-- The `pytest_command` local of the run-tests branch:
`f"pytest -k {self._k}" if self._k else "pytest"`. -/
def pytest_command (c : DevCommand) : String :=
  if truthy c.k then "pytest -k " ++ c.k.getD "" else "pytest"

/-- The `command_to_run_test` local of the run-tests branch: the pytest
invocation, wrapped in `coverage run -m` when `--show_coverage` is set. -/
def command_to_run_test (c : DevCommand) : String :=
  if c.show_coverage then "coverage run -m " ++ pytest_command c
  else pytest_command c

/-- The statement sequence of the branch of `DevCommand.run` selected by the
`if`/`elif` chain: cleanup, then build, then run-tests, then lint, first true
flag wins; with no flag set, no statement at all. -/
def bodyStmts (c : DevCommand) : List Stmt :=
  if c.cleanup then
    [.rmtree "build", .rmtree "dist", .rmtree "pypots.egg-info"]
  else if c.build then
    [.exec "python setup.py sdist bdist bdist_wheel"]
  else if c.run_tests then
    [.log ("Executing '" ++ command_to_run_test c ++ "'..."),
     .exec (command_to_run_test c)] ++
    (if c.show_coverage then
      [.exec "coverage report -m", .exec "rm -rf .coverage"]
     else []) ++
    [.exec "rm -rf .pytest_cache"]
  else if c.lint_code then
    [.log "Reformatting with Black...", .exec "black .",
     .log "Linting with Flake8...", .exec "flake8 ."]
  else []

/-- Execute statements in order.  Logs and ignore-errors removals always
proceed; an `exec` statement consults the oracle and, on a raised exception,
stops execution there (the command was invoked, so its effect is recorded)
and propagates the exception. -/
def execStmts (runner : String → ExecOutcome) : List Stmt → List Effect × Option RaisedExc
  | [] => ([], none)
  | .log m :: rest =>
    let r := execStmts runner rest
    (.logInfo m :: r.1, r.2)
  | .rmtree d :: rest =>
    let r := execStmts runner rest
    (.rmtreeIgnore d :: r.1, r.2)
  | .exec cmd :: rest =>
    match runner cmd with
    | .ok =>
      let r := execStmts runner rest
      (.execCmd cmd :: r.1, r.2)
    | .importErr m => ([.execCmd cmd], some (.importError m))
    | .err m => ([.execCmd cmd], some (.exc m))

/-- `DevCommand.run`: validate first (an AssertionError aborts with an empty
trace, before any action), then execute the selected branch inside the
`try`/`except` wrapping: a propagating ImportError is replaced by
`ImportError(IMPORT_ERROR_MESSAGE)`, any other exception `e` is rewrapped as
`RuntimeError(e)` with the original message as its cause. -/
def run (listing : List String) (cwd : String) (runner : String → ExecOutcome)
    (c : DevCommand) : List Effect × Option RunError :=
  match check_arguments listing cwd c with
  | .error m => ([], some (.assertionError m))
  | .ok _ =>
    let r := execStmts runner (bodyStmts c)
    match r.2 with
    | none => (r.1, none)
    | some (.importError _) => (r.1, some (.importError IMPORT_ERROR_MESSAGE))
    | some (.exc m) => (r.1, some (.runtimeError m))

/-- The four actions of the dispatch chain. -/
inductive Action
  | cleanupAct
  | buildAct
  | runTestsAct
  | lintAct
deriving DecidableEq, Repr

/-- The action the `if`/`elif` chain of `DevCommand.run` selects, by priority
cleanup > build > run-tests > lint; `none` when no flag is set. -/
def selectAction (c : DevCommand) : Option Action :=
  if c.cleanup then some .cleanupAct
  else if c.build then some .buildAct
  else if c.run_tests then some .runTestsAct
  else if c.lint_code then some .lintAct
  else none

/-- The statement sequence of each action, written out per action (and the
empty sequence for no action), for comparison with the dispatch chain. -/
def actionStmts (c : DevCommand) : Option Action → List Stmt
  | some .cleanupAct =>
    [.rmtree "build", .rmtree "dist", .rmtree "pypots.egg-info"]
  | some .buildAct => [.exec "python setup.py sdist bdist bdist_wheel"]
  | some .runTestsAct =>
    [.log ("Executing '" ++ command_to_run_test c ++ "'..."),
     .exec (command_to_run_test c)] ++
    (if c.show_coverage then
      [.exec "coverage report -m", .exec "rm -rf .coverage"]
     else []) ++
    [.exec "rm -rf .pytest_cache"]
  | some .lintAct =>
    [.log "Reformatting with Black...", .exec "black .",
     .log "Linting with Flake8...", .exec "flake8 ."]
  | none => []

/-- The effect an executed statement records. -/
def stmtEffect : Stmt → Effect
  | .log m => .logInfo m
  | .rmtree d => .rmtreeIgnore d
  | .exec cmd => .execCmd cmd

/-- A directory listing after `shutil.rmtree(d, ignore_errors=True)`: the
entry `d` is gone if it was present, and a listing without `d` is returned
unchanged, never an error. -/
def rmtreeFs (fs : List String) (d : String) : List String :=
  fs.filter (fun x => x ≠ d)

/-- The directory listing of the working directory after one recorded effect.
Only the in-process ignore-errors removals touch it; log lines do nothing and
external commands are opaque subprocesses outside the model. -/
def applyEffect (fs : List String) : Effect → List String
  | .rmtreeIgnore d => rmtreeFs fs d
  | .logInfo _ => fs
  | .execCmd _ => fs

/-- The directory listing after a whole trace of effects. -/
def applyTrace (fs : List String) (t : List Effect) : List String :=
  t.foldl applyEffect fs

/-- An oracle for which every external command succeeds. -/
def okRunner : String → ExecOutcome := fun _ => .ok

/-- An oracle for which every external command raises an ImportError, as when
the development dependencies are not installed. -/
def importFailRunner : String → ExecOutcome := fun _ => .importErr "No module named pytest"

/-- The rewrapping the `except` clauses of `DevCommand.run` apply to the
outcome of the `try` block: nothing on success, the ImportError replaced by
one carrying `IMPORT_ERROR_MESSAGE`, any other exception rewrapped as a
RuntimeError keeping the original message as cause. -/
def wrapExc : List Effect × Option RaisedExc → List Effect × Option RunError
  | (t, none) => (t, none)
  | (t, some (.importError _)) => (t, some (.importError IMPORT_ERROR_MESSAGE))
  | (t, some (.exc m)) => (t, some (.runtimeError m))

/-- A working-directory listing containing both required sibling entries. -/
def validListing : List String := ["docs", "pypots"]

/-- A sample working-directory path for concrete evaluations. -/
def samplePath : String := "/workspace/PyPOTS"

/-- The request produced by `pypots-cli dev` with no flag at all. -/
def devDefault : DevCommand := ⟨false, false, false, none, false, false⟩

/-- The request of `pypots-cli dev --run_tests -k imputation --show_coverage`. -/
def runTestsCovReq : DevCommand := ⟨false, false, true, some "imputation", true, false⟩

/-- The request of `pypots-cli dev --run_tests` alone. -/
def runTestsReq : DevCommand := ⟨false, false, true, none, false, false⟩

/-- The request of `pypots-cli dev --build`. -/
def buildReq : DevCommand := ⟨true, false, false, none, false, false⟩

/-- The request of `pypots-cli dev --run_tests -k ""`: a test filter that is
present but empty. -/
def emptyFilterReq : DevCommand := ⟨false, false, true, some "", false, false⟩

/-- The request of `pypots-cli dev --cleanup`. -/
def cleanupReq : DevCommand := ⟨false, true, false, none, false, false⟩

/-- The request of `pypots-cli dev --cleanup --lint_code -k imputation`. -/
def cleanupLintFilterReq : DevCommand := ⟨false, true, false, some "imputation", false, true⟩

/-- The request of `pypots-cli dev --cleanup --build --show_coverage`. -/
def cleanupBuildCovReq : DevCommand := ⟨true, true, false, none, true, false⟩

/-- The request of `pypots-cli dev --cleanup --build`. -/
def cleanupBuildReq : DevCommand := ⟨true, true, false, none, false, false⟩

theorem bodyStmts_eq_actionStmts (c : DevCommand) :
    bodyStmts c = actionStmts c (selectAction c) := by
  cases hc : c.cleanup <;> cases hb : c.build <;> cases hrt : c.run_tests <;>
    cases hl : c.lint_code <;>
      simp [bodyStmts, actionStmts, selectAction, hc, hb, hrt, hl]

theorem selectAction_eq_cleanupAct (c : DevCommand) :
    selectAction c = some .cleanupAct ↔ c.cleanup = true := by
  cases hc : c.cleanup <;> cases hb : c.build <;> cases hrt : c.run_tests <;>
    cases hl : c.lint_code <;> simp [selectAction, hc, hb, hrt, hl]

theorem selectAction_eq_runTestsAct (c : DevCommand) :
    selectAction c = some .runTestsAct ↔
      c.cleanup = false ∧ c.build = false ∧ c.run_tests = true := by
  cases hc : c.cleanup <;> cases hb : c.build <;> cases hrt : c.run_tests <;>
    cases hl : c.lint_code <;> simp [selectAction, hc, hb, hrt, hl]

theorem execStmts_no_exc (runner : String → ExecOutcome) :
    ∀ ss : List Stmt, (execStmts runner ss).2 = none →
      (execStmts runner ss).1 = ss.map stmtEffect := by
  intro ss
  induction ss with
  | nil => intro _; rfl
  | cons s rest ih =>
    cases s with
    | log m =>
      intro h
      have h' : (execStmts runner rest).2 = none := by simpa [execStmts] using h
      simp [execStmts, stmtEffect, ih h']
    | rmtree d =>
      intro h
      have h' : (execStmts runner rest).2 = none := by simpa [execStmts] using h
      simp [execStmts, stmtEffect, ih h']
    | exec cmd =>
      intro h
      cases hr : runner cmd with
      | ok =>
        have h' : (execStmts runner rest).2 = none := by
          simpa [execStmts, hr] using h
        simp [execStmts, hr, stmtEffect, ih h']
      | importErr m => simp [execStmts, hr] at h
      | err m => simp [execStmts, hr] at h

theorem run_of_check_error (listing : List String) (cwd : String)
    (runner : String → ExecOutcome) (c : DevCommand) (m : String)
    (h : check_arguments listing cwd c = .error m) :
    run listing cwd runner c = ([], some (.assertionError m)) := by
  unfold run
  rw [h]

theorem run_of_check_ok (listing : List String) (cwd : String)
    (runner : String → ExecOutcome) (c : DevCommand)
    (h : check_arguments listing cwd c = .ok ()) :
    run listing cwd runner c = wrapExc (execStmts runner (bodyStmts c)) := by
  rcases he : execStmts runner (bodyStmts c) with ⟨t, e⟩
  unfold run
  rw [h, he]
  rcases e with _ | e
  · rfl
  · cases e <;> rfl

/-- C1: for every validated DevRequest (one `check_arguments` accepts), the
executor performs exactly the action sequence selected by priority order
cleanup > build > run-tests > lint (the first true flag wins), and when none
of the four flags is set, no action is taken: the run is the execution of the
selected action's statements, and with no action selected it produces an
empty trace and no error. -/
theorem dispatch_follows_priority (listing : List String) (cwd : String)
    (runner : String → ExecOutcome) (c : DevCommand)
    (h : check_arguments listing cwd c = .ok ()) :
    run listing cwd runner c =
      wrapExc (execStmts runner (actionStmts c (selectAction c))) ∧
    (selectAction c = none → run listing cwd runner c = ([], none)) := by
  have hbody := bodyStmts_eq_actionStmts c
  have hr := run_of_check_ok listing cwd runner c h
  constructor
  · rw [hr, hbody]
  · intro hn
    rw [hr, hbody, hn]
    rfl

/-- Witness for C1 at the all-defaults request in a valid working
directory. -/
theorem dispatch_follows_priority_witness :
    run validListing samplePath okRunner devDefault =
      wrapExc (execStmts okRunner (actionStmts devDefault (selectAction devDefault))) ∧
    (selectAction devDefault = none →
      run validListing samplePath okRunner devDefault = ([], none)) :=
  dispatch_follows_priority validListing samplePath okRunner devDefault (by rfl)

/-- C3: in a working directory missing the `docs` or the `pypots` sibling,
validation fails with the assertion message naming the offending working
directory, whatever the flags are, and the run performs no action at all (its
trace is empty). -/
theorem invalid_cwd_fails_before_actions (listing : List String) (cwd : String)
    (runner : String → ExecOutcome) (c : DevCommand)
    (h : (listing.contains "docs" && listing.contains "pypots") = false) :
    check_arguments listing cwd c = .error (dirCheckMsg cwd) ∧
    run listing cwd runner c = ([], some (.assertionError (dirCheckMsg cwd))) ∧
    ∃ pre post, dirCheckMsg cwd = pre ++ (cwd ++ post) := by
  have hc : check_arguments listing cwd c = .error (dirCheckMsg cwd) := by
    unfold check_arguments
    rw [h]
    rfl
  exact ⟨hc, run_of_check_error listing cwd runner c _ hc,
    dirCheckMsgHead, dirCheckMsgTail, rfl⟩

/-- Witness for C3 at an empty working directory. -/
theorem invalid_cwd_fails_before_actions_witness :
    check_arguments [] samplePath devDefault = .error (dirCheckMsg samplePath) ∧
    run [] samplePath okRunner devDefault =
      ([], some (.assertionError (dirCheckMsg samplePath))) ∧
    ∃ pre post, dirCheckMsg samplePath = pre ++ (samplePath ++ post) :=
  invalid_cwd_fails_before_actions [] samplePath okRunner devDefault (by rfl)

/-- C4: in a valid working directory, a test filter given without
`--run_tests` makes validation fail with the `-k` combined-usage message;
`--show_coverage` without `--run_tests` makes validation fail with a
combined-usage message (the `-k` one when a filter is also present, else the
`--show_coverage` one), and with no filter present it is exactly the
`--show_coverage` combined-usage message. -/
theorem dependent_flag_validation (listing : List String) (cwd : String)
    (c : DevCommand)
    (hdocs : listing.contains "docs" = true)
    (hpypots : listing.contains "pypots" = true) :
    (c.k.isSome = true → c.run_tests = false →
      check_arguments listing cwd c = .error kUsageMsg) ∧
    (c.show_coverage = true → c.run_tests = false →
      check_arguments listing cwd c = .error kUsageMsg ∨
      check_arguments listing cwd c = .error coverageUsageMsg) ∧
    (c.show_coverage = true → c.run_tests = false → c.k = none →
      check_arguments listing cwd c = .error coverageUsageMsg) := by
  have hd : "docs" ∈ listing := by simpa using hdocs
  have hp : "pypots" ∈ listing := by simpa using hpypots
  refine ⟨fun hk hrt => ?_, fun hsc hrt => ?_, fun hsc hrt hk => ?_⟩
  · unfold check_arguments
    simp [hd, hp, hk, hrt]
  · cases hk : c.k.isSome with
    | true =>
      left
      unfold check_arguments
      simp [hd, hp, hk, hrt]
    | false =>
      right
      unfold check_arguments
      simp [hd, hp, hk, hrt, hsc]
  · unfold check_arguments
    simp [hd, hp, hk, hrt, hsc]

/-- Witness for C4 at a request carrying both a filter and the coverage flag
without `--run_tests`. -/
theorem dependent_flag_validation_witness :
    (DevCommand.k ⟨false, false, false, some "imputation", true, false⟩ |>.isSome) = true ∧
    check_arguments validListing samplePath
      ⟨false, false, false, some "imputation", true, false⟩ = .error kUsageMsg := by
  have h := dependent_flag_validation validListing samplePath
    ⟨false, false, false, some "imputation", true, false⟩ (by rfl) (by rfl)
  exact ⟨rfl, h.1 rfl rfl⟩

/-- The request of `pypots-cli dev --cleanup --lint_code`. -/
def cleanupLintReq : DevCommand := ⟨false, true, false, none, false, true⟩

/-- C2: whenever the run-tests action is the one dispatched (validation
passed) and the run raises no exception, its trace ends with the removal of
the test cache directory (`rm -rf .pytest_cache`), whether or not coverage
was requested. -/
theorem run_tests_clears_pytest_cache (listing : List String) (cwd : String)
    (runner : String → ExecOutcome) (c : DevCommand)
    (hok : check_arguments listing cwd c = .ok ())
    (hsel : selectAction c = some .runTestsAct)
    (hnoerr : (run listing cwd runner c).2 = none) :
    ∃ pre, (run listing cwd runner c).1 =
      pre ++ [.execCmd "rm -rf .pytest_cache"] := by
  obtain ⟨hc, hb, hrt⟩ := (selectAction_eq_runTestsAct c).mp hsel
  have hr := run_of_check_ok listing cwd runner c hok
  rcases he : execStmts runner (bodyStmts c) with ⟨t, e⟩
  have h2 : e = none := by
    rw [hr, he] at hnoerr
    rcases e with _ | e
    · rfl
    · cases e <;> simp [wrapExc] at hnoerr
  subst h2
  have ht : t = (bodyStmts c).map stmtEffect := by
    have hmap := execStmts_no_exc runner (bodyStmts c) (by rw [he])
    rw [he] at hmap
    exact hmap
  have htr : (run listing cwd runner c).1 = (bodyStmts c).map stmtEffect := by
    rw [hr, he, ht]
    rfl
  rw [htr]
  have hbody : bodyStmts c =
      ([.log ("Executing '" ++ command_to_run_test c ++ "'..."),
        .exec (command_to_run_test c)] ++
       (if c.show_coverage then
         [.exec "coverage report -m", .exec "rm -rf .coverage"]
        else []) ++
       [.exec "rm -rf .pytest_cache"]) := by
    unfold bodyStmts
    simp [hc, hb, hrt]
  rw [hbody]
  cases hsc : c.show_coverage
  · exact ⟨[.logInfo ("Executing '" ++ command_to_run_test c ++ "'..."),
      .execCmd (command_to_run_test c)], by simp [hsc, stmtEffect]⟩
  · exact ⟨[.logInfo ("Executing '" ++ command_to_run_test c ++ "'..."),
      .execCmd (command_to_run_test c),
      .execCmd "coverage report -m", .execCmd "rm -rf .coverage"],
      by simp [hsc, stmtEffect]⟩

/-- Witness for C2 at `--run_tests -k imputation --show_coverage` with every
external command succeeding. -/
theorem run_tests_clears_pytest_cache_witness :
    ∃ pre, (run validListing samplePath okRunner runTestsCovReq).1 =
      pre ++ [.execCmd "rm -rf .pytest_cache"] :=
  run_tests_clears_pytest_cache validListing samplePath okRunner runTestsCovReq
    (by rfl) (by rfl) (by rfl)

/-- C5 counterexample: with `--cleanup --lint_code -k imputation` in a valid
working directory, validation does fail, but with the `-k` combined-usage
message, not with the message stating cleanup must be used alone. -/
theorem cleanup_alone_msg_counterexample :
    cleanupLintFilterReq.cleanup = true ∧
    cleanupLintFilterReq.lint_code = true ∧
    cleanupLintFilterReq.run_tests = false ∧
    check_arguments validListing samplePath cleanupLintFilterReq = .error kUsageMsg ∧
    kUsageMsg ≠ cleanupAloneMsg := by
  refine ⟨rfl, rfl, rfl, by rfl, by decide⟩

/-- C5 (amended): in a valid working directory, whenever `cleanup` is set
together with `runTests` or `lintCode`, validation fails with some assertion
message and no action is dispatched (the trace is empty); the message is the
cleanup-must-be-used-alone one whenever no earlier dependent-flag check
(a test filter or the coverage flag without `runTests`) fails first. -/
theorem cleanup_exclusive_validation (listing : List String) (cwd : String)
    (runner : String → ExecOutcome) (c : DevCommand)
    (hdocs : listing.contains "docs" = true)
    (hpypots : listing.contains "pypots" = true)
    (hc : c.cleanup = true)
    (hrl : c.run_tests = true ∨ c.lint_code = true) :
    (∃ m, check_arguments listing cwd c = .error m ∧
      run listing cwd runner c = ([], some (.assertionError m))) ∧
    ((c.k.isSome = true → c.run_tests = true) →
     (c.show_coverage = true → c.run_tests = true) →
      check_arguments listing cwd c = .error cleanupAloneMsg) := by
  have hd : "docs" ∈ listing := by simpa using hdocs
  have hp : "pypots" ∈ listing := by simpa using hpypots
  have hfail : check_arguments listing cwd c ≠ .ok () := by
    unfold check_arguments
    rcases hrl with hrt | hl
    · cases hk : c.k.isSome <;> cases hsc : c.show_coverage <;>
        simp [hd, hp, hc, hk, hsc, hrt]
    · cases hk : c.k.isSome <;> cases hrt : c.run_tests <;>
        cases hsc : c.show_coverage <;> simp [hd, hp, hc, hk, hsc, hrt, hl]
  constructor
  · rcases hchk : check_arguments listing cwd c with m | u
    · exact ⟨m, rfl, run_of_check_error listing cwd runner c m hchk⟩
    · cases u
      exact absurd hchk hfail
  · intro hkimp hscimp
    cases hrt : c.run_tests
    · have hk : c.k.isSome = false := by
        cases hx : c.k.isSome
        · rfl
        · have h1 := hkimp hx
          rw [hrt] at h1
          exact Bool.noConfusion h1
      have hsc : c.show_coverage = false := by
        cases hx : c.show_coverage
        · rfl
        · have h1 := hscimp hx
          rw [hrt] at h1
          exact Bool.noConfusion h1
      have hl : c.lint_code = true := by
        rcases hrl with h1 | h1
        · rw [hrt] at h1
          exact Bool.noConfusion h1
        · exact h1
      unfold check_arguments
      simp [hd, hp, hc, hk, hsc, hrt, hl]
    · unfold check_arguments
      simp [hd, hp, hc, hrt]

/-- Witness for C5 at `--cleanup --lint_code` in a valid working
directory. -/
theorem cleanup_exclusive_validation_witness :
    (∃ m, check_arguments validListing samplePath cleanupLintReq = .error m ∧
      run validListing samplePath okRunner cleanupLintReq =
        ([], some (.assertionError m))) ∧
    ((cleanupLintReq.k.isSome = true → cleanupLintReq.run_tests = true) →
     (cleanupLintReq.show_coverage = true → cleanupLintReq.run_tests = true) →
      check_arguments validListing samplePath cleanupLintReq = .error cleanupAloneMsg) :=
  cleanup_exclusive_validation validListing samplePath okRunner cleanupLintReq
    (by rfl) (by rfl) (by rfl) (Or.inr (by rfl))

/-- C6: whenever the cleanup action is the one dispatched (validation
passed), the run removes, errors ignored, exactly the three directories
`build`, `dist` and `pypots.egg-info` and nothing else, raising no error; on
any directory listing, present or absent entries alike, the surviving entries
are exactly those different from the three. -/
theorem cleanup_removes_three_dirs (listing : List String) (cwd : String)
    (runner : String → ExecOutcome) (c : DevCommand) (fs : List String)
    (hok : check_arguments listing cwd c = .ok ())
    (hsel : selectAction c = some .cleanupAct) :
    run listing cwd runner c =
      ([.rmtreeIgnore "build", .rmtreeIgnore "dist",
        .rmtreeIgnore "pypots.egg-info"], none) ∧
    (∀ d, d ∈ applyTrace fs (run listing cwd runner c).1 ↔
      (d ∈ fs ∧ d ≠ "build" ∧ d ≠ "dist" ∧ d ≠ "pypots.egg-info")) := by
  have hc : c.cleanup = true := (selectAction_eq_cleanupAct c).mp hsel
  have hr := run_of_check_ok listing cwd runner c hok
  have hbody : bodyStmts c =
      [.rmtree "build", .rmtree "dist", .rmtree "pypots.egg-info"] := by
    unfold bodyStmts
    simp [hc]
  have htrace : run listing cwd runner c =
      ([.rmtreeIgnore "build", .rmtreeIgnore "dist",
        .rmtreeIgnore "pypots.egg-info"], none) := by
    rw [hr, hbody]
    rfl
  refine ⟨htrace, fun d => ?_⟩
  rw [htrace]
  simp only [applyTrace, applyEffect, rmtreeFs, List.foldl, List.mem_filter,
    decide_eq_true_eq]
  tauto

/-- Witness for C6 at `--cleanup` over a listing in which `dist` and
`pypots.egg-info` are absent. -/
theorem cleanup_removes_three_dirs_witness :
    run validListing samplePath okRunner cleanupReq =
      ([.rmtreeIgnore "build", .rmtreeIgnore "dist",
        .rmtreeIgnore "pypots.egg-info"], none) ∧
    (∀ d, d ∈ applyTrace ["docs", "pypots", "build"]
        (run validListing samplePath okRunner cleanupReq).1 ↔
      (d ∈ ["docs", "pypots", "build"] ∧
        d ≠ "build" ∧ d ≠ "dist" ∧ d ≠ "pypots.egg-info")) :=
  cleanup_removes_three_dirs validListing samplePath okRunner cleanupReq
    ["docs", "pypots", "build"] (by rfl) (by rfl)

theorem run_trace_of_no_exc (listing : List String) (cwd : String)
    (runner : String → ExecOutcome) (c : DevCommand)
    (hok : check_arguments listing cwd c = .ok ())
    (hnoerr : (run listing cwd runner c).2 = none) :
    (run listing cwd runner c).1 = (bodyStmts c).map stmtEffect := by
  have hr := run_of_check_ok listing cwd runner c hok
  rcases he : execStmts runner (bodyStmts c) with ⟨t, e⟩
  have h2 : e = none := by
    rw [hr, he] at hnoerr
    rcases e with _ | e
    · rfl
    · cases e <;> simp [wrapExc] at hnoerr
  subst h2
  have ht : t = (bodyStmts c).map stmtEffect := by
    have hmap := execStmts_no_exc runner (bodyStmts c) (by rw [he])
    rw [he] at hmap
    exact hmap
  rw [hr, he, ht]
  rfl

/-- C7 counterexample: with `--run_tests -k ""` the stored filter is present
(`isSome` holds), yet the constructed invocation is the plain `pytest`, not
the `-k`-scoped `pytest -k ` that scoping an empty pattern would give. -/
theorem empty_filter_unscoped_counterexample :
    emptyFilterReq.k.isSome = true ∧
    pytest_command emptyFilterReq = "pytest" ∧
    pytest_command emptyFilterReq ≠ "pytest -k " ++ "" := by
  refine ⟨rfl, by rfl, by decide⟩

/-- C7 (amended): for every run-tests dispatch (validation passed): a present
and non-empty test filter makes the invocation the `-k`-scoped one over the
pattern; the coverage flag wraps the invocation in `coverage run -m`; and
with coverage requested, a run raising no exception logs and invokes the
wrapped command, prints the coverage report, then deletes the coverage data
file, in that order, before removing the test cache. -/
theorem test_command_construction (listing : List String) (cwd : String)
    (runner : String → ExecOutcome) (c : DevCommand)
    (hok : check_arguments listing cwd c = .ok ())
    (hsel : selectAction c = some .runTestsAct) :
    (∀ p, c.k = some p → p ≠ "" → pytest_command c = "pytest -k " ++ p) ∧
    (c.show_coverage = true →
      command_to_run_test c = "coverage run -m " ++ pytest_command c) ∧
    (c.show_coverage = true → (run listing cwd runner c).2 = none →
      (run listing cwd runner c).1 =
        [.logInfo ("Executing '" ++ command_to_run_test c ++ "'..."),
         .execCmd (command_to_run_test c),
         .execCmd "coverage report -m",
         .execCmd "rm -rf .coverage",
         .execCmd "rm -rf .pytest_cache"]) := by
  obtain ⟨hc, hb, hrt⟩ := (selectAction_eq_runTestsAct c).mp hsel
  refine ⟨fun p hp hne => ?_, fun hsc => ?_, fun hsc hnoerr => ?_⟩
  · simp [pytest_command, truthy, hp, hne]
  · simp [command_to_run_test, hsc]
  · have htr := run_trace_of_no_exc listing cwd runner c hok hnoerr
    rw [htr]
    unfold bodyStmts
    simp [hc, hb, hrt, hsc, stmtEffect]

/-- Witness for C7 at `--run_tests -k imputation --show_coverage` with every
external command succeeding. -/
theorem test_command_construction_witness :
    (∀ p, runTestsCovReq.k = some p → p ≠ "" →
      pytest_command runTestsCovReq = "pytest -k " ++ p) ∧
    (runTestsCovReq.show_coverage = true →
      command_to_run_test runTestsCovReq =
        "coverage run -m " ++ pytest_command runTestsCovReq) ∧
    (runTestsCovReq.show_coverage = true →
      (run validListing samplePath okRunner runTestsCovReq).2 = none →
      (run validListing samplePath okRunner runTestsCovReq).1 =
        [.logInfo ("Executing '" ++ command_to_run_test runTestsCovReq ++ "'..."),
         .execCmd (command_to_run_test runTestsCovReq),
         .execCmd "coverage report -m",
         .execCmd "rm -rf .coverage",
         .execCmd "rm -rf .pytest_cache"]) :=
  test_command_construction validListing samplePath okRunner runTestsCovReq
    (by rfl) (by rfl)

set_option maxRecDepth 20000 in
/-- C8: after validation passes, an ImportError raised while executing the
selected action is reported as the configuration message
`IMPORT_ERROR_MESSAGE`, which points at the development environment file
environment-dev.yml; any other exception is rewrapped as a RuntimeError whose
cause is the original exception's message. -/
theorem failure_wrapping (listing : List String) (cwd : String)
    (runner : String → ExecOutcome) (c : DevCommand)
    (hok : check_arguments listing cwd c = .ok ()) :
    (∀ m, (execStmts runner (bodyStmts c)).2 = some (.importError m) →
      (run listing cwd runner c).2 = some (.importError IMPORT_ERROR_MESSAGE)) ∧
    (∀ m, (execStmts runner (bodyStmts c)).2 = some (.exc m) →
      (run listing cwd runner c).2 = some (.runtimeError m)) ∧
    (∃ pre post, IMPORT_ERROR_MESSAGE = pre ++ ("environment-dev.yml" ++ post)) := by
  have hr := run_of_check_ok listing cwd runner c hok
  refine ⟨fun m hm => ?_, fun m hm => ?_, ?_⟩
  · rcases he : execStmts runner (bodyStmts c) with ⟨t, e⟩
    rw [he] at hm
    have h2 : e = some (.importError m) := hm
    rw [hr, he, h2]
    rfl
  · rcases he : execStmts runner (bodyStmts c) with ⟨t, e⟩
    rw [he] at hm
    have h2 : e = some (.exc m) := hm
    rw [hr, he, h2]
    rfl
  · exact ⟨"`pypots-cli dev` command is for PyPOTS developers to run tests easily. " ++
      "Therefore, you need a complete PyPOTS development environment. However, you are missing some dependencies. " ++
      "Please refer to https://github.com/WenjieDu/PyPOTS/blob/main/",
      " for dependency details. ", by decide⟩

/-- Witness for C8: with `--build` and every external command raising an
ImportError, the run reports the configuration message. -/
theorem failure_wrapping_witness :
    (run validListing samplePath importFailRunner buildReq).2 =
      some (.importError IMPORT_ERROR_MESSAGE) :=
  (failure_wrapping validListing samplePath importFailRunner buildReq
    (by rfl)).1 "No module named pytest" (by rfl)

/-- C9: the request `--run_tests -k ""` passes validation (the filter is only
compared against the absent value) while its filter is present, yet dispatch
treats the empty filter as absent: the constructed command is the plain
`pytest` and the whole run coincides with that of the same request with no
filter at all. -/
theorem empty_filter_validated_but_ignored :
    check_arguments validListing samplePath emptyFilterReq = .ok () ∧
    emptyFilterReq.k.isSome = true ∧
    pytest_command emptyFilterReq = "pytest" ∧
    run validListing samplePath okRunner emptyFilterReq =
      run validListing samplePath okRunner runTestsReq ∧
    (run validListing samplePath okRunner emptyFilterReq).1 =
      [.logInfo "Executing 'pytest'...", .execCmd "pytest",
       .execCmd "rm -rf .pytest_cache"] := by
  refine ⟨by rfl, rfl, by rfl, by rfl, by rfl⟩

/-- C10 counterexample: for `--cleanup --build --show_coverage` (with
runTests and lintCode false) in a valid working directory, validation does
not succeed: it fails with the `--show_coverage` combined-usage message. -/
theorem cleanup_build_validation_counterexample :
    cleanupBuildCovReq.cleanup = true ∧
    cleanupBuildCovReq.build = true ∧
    cleanupBuildCovReq.run_tests = false ∧
    cleanupBuildCovReq.lint_code = false ∧
    check_arguments validListing samplePath cleanupBuildCovReq =
      .error coverageUsageMsg := by
  refine ⟨rfl, rfl, rfl, rfl, by rfl⟩

/-- C10 (amended): with `cleanup` and `build` both set, `runTests` and
`lintCode` false, no test filter and no coverage flag, in a valid working
directory, validation succeeds — despite the wording of the cleanup-alone
message — and the run performs the cleanup removals while the packaging
command is never invoked. -/
theorem cleanup_shadows_build (listing : List String) (cwd : String)
    (runner : String → ExecOutcome) (c : DevCommand)
    (hdocs : listing.contains "docs" = true)
    (hpypots : listing.contains "pypots" = true)
    (hc : c.cleanup = true) (_hb : c.build = true)
    (hrt : c.run_tests = false) (hl : c.lint_code = false)
    (hk : c.k = none) (hsc : c.show_coverage = false) :
    check_arguments listing cwd c = .ok () ∧
    run listing cwd runner c =
      ([.rmtreeIgnore "build", .rmtreeIgnore "dist",
        .rmtreeIgnore "pypots.egg-info"], none) ∧
    Effect.execCmd "python setup.py sdist bdist bdist_wheel" ∉
      (run listing cwd runner c).1 := by
  have hd : "docs" ∈ listing := by simpa using hdocs
  have hp : "pypots" ∈ listing := by simpa using hpypots
  have hok : check_arguments listing cwd c = .ok () := by
    unfold check_arguments
    simp [hd, hp, hc, hk, hrt, hsc, hl]
  have hr := run_of_check_ok listing cwd runner c hok
  have hbody : bodyStmts c =
      [.rmtree "build", .rmtree "dist", .rmtree "pypots.egg-info"] := by
    unfold bodyStmts
    simp [hc]
  have htrace : run listing cwd runner c =
      ([.rmtreeIgnore "build", .rmtreeIgnore "dist",
        .rmtreeIgnore "pypots.egg-info"], none) := by
    rw [hr, hbody]
    rfl
  refine ⟨hok, htrace, ?_⟩
  rw [htrace]
  decide

/-- Witness for C10 at `--cleanup --build` in a valid working directory. -/
theorem cleanup_shadows_build_witness :
    check_arguments validListing samplePath cleanupBuildReq = .ok () ∧
    run validListing samplePath okRunner cleanupBuildReq =
      ([.rmtreeIgnore "build", .rmtreeIgnore "dist",
        .rmtreeIgnore "pypots.egg-info"], none) ∧
    Effect.execCmd "python setup.py sdist bdist bdist_wheel" ∉
      (run validListing samplePath okRunner cleanupBuildReq).1 :=
  cleanup_shadows_build validListing samplePath okRunner cleanupBuildReq
    (by rfl) (by rfl) (by rfl) (by rfl) (by rfl) (by rfl) (by rfl) (by rfl)

end PyPotsDev
